import Mathlib

/-!
Verification development for the two tutorial scripts of this repository:
`tutorials_cupy/poststack_cupy.py` and `tutorials_nccl/poststack_nccl.py`.

The development has two layers.

Layer A is a deep embedding of the Python surface syntax of both scripts:
a small Python expression/statement AST (`PExpr`, `Stmt`), and the two
scripts transcribed statement by statement (`cupyScript`, `ncclScript`).
Claims about the program text (which statements the scripts contain, where
they differ, what is hardcoded, what is guarded by the `rank == 0`
conditional) are stated and decided over this embedding.

Layer B is a shallow semantic embedding of the dataflow of the scripts:
numpy arrays as shaped index functions (`Arr1`, `Arr2`, `Arr3`), the numpy
operations the scripts use (slicing, tile, transpose, concatenate, reshape,
flatten) given their documented semantics, the external library calls
(scipy `filtfilt`, pylops `ricker`, operator application, solvers) kept
abstract as parameters (`Libs`), and operators / distributed arrays as
symbolic expressions (`OpExpr`, `DistExpr`).  Claims about run-time values
(tiling indices, gathered shapes, equality of `d_0` and `d`) are proved
over this embedding, for every choice of the abstract library semantics.
-/

/-! ## Layer A: Python surface syntax -/

mutual

/-- Python expressions as they occur in the two scripts.  A numeric literal
is stored as a mantissa and a power of ten (`num m e` stands for the source
literal m·10^e, so `0.004` is `num 4 (-3)` and `1e2` is `num 1 2`). -/
inductive PExpr where
  | num (mant : Int) (exp10 : Int)
  | str (s : String)
  | boolLit (b : Bool)
  | name (x : String)
  | atr (e : PExpr) (field : String)
  | call (f : PExpr) (args : PArgs) (kwargs : PKwargs)
  | binop (op : String) (a b : PExpr)
  | subscript (e : PExpr) (idx : PIdxs)
  | tup (es : PArgs)
  | listE (es : PArgs)
  deriving DecidableEq

/-- Positional-argument lists (a bespoke list so that equality derives). -/
inductive PArgs where
  | nil
  | cons (e : PExpr) (rest : PArgs)
  deriving DecidableEq

/-- Keyword-argument lists, in source order. -/
inductive PKwargs where
  | nil
  | cons (key : String) (e : PExpr) (rest : PKwargs)
  deriving DecidableEq

/-- One component of a Python subscript: a plain index, the full slice `:`,
the stepped slice `::k`, or the bounded slice `:e`. -/
inductive PIdx where
  | ix (e : PExpr)
  | sliceAll
  | sliceStep (step : PExpr)
  | sliceTo (hi : PExpr)
  deriving DecidableEq

/-- Subscript-component lists. -/
inductive PIdxs where
  | nil
  | cons (i : PIdx) (rest : PIdxs)
  deriving DecidableEq

end

mutual

/-- Python statements as they occur in the two scripts, plus the control
constructs Python offers that the scripts never use (`tryStmt`, `forStmt`,
`whileStmt`), so that their absence is expressible.  `setItemAll t e`
stands for the slice assignment `t[:] = e`. -/
inductive Stmt where
  | importMod (module : String) (asName : Option String)
  | fromImport (module item : String) (asName : Option String)
  | assign (target : String) (rhs : PExpr)
  | assignTup (targets : List String) (rhs : PExpr)
  | setItemAll (target : String) (rhs : PExpr)
  | exprStmt (e : PExpr)
  | ifStmt (cond : PExpr) (body : Stmts)
  | forStmt (var : String) (iter : PExpr) (body : Stmts)
  | whileStmt (cond : PExpr) (body : Stmts)
  | tryStmt (body handler : Stmts)
  deriving DecidableEq

/-- Statement lists (a bespoke list so that equality derives). -/
inductive Stmts where
  | nil
  | cons (s : Stmt) (rest : Stmts)
  deriving DecidableEq

end

/-- Convert a standard list of expressions into a `PArgs` list. -/
def PArgs.ofL : List PExpr → PArgs
  | [] => .nil
  | e :: es => .cons e (PArgs.ofL es)

/-- Convert a standard list of keyword arguments into a `PKwargs` list. -/
def PKwargs.ofL : List (String × PExpr) → PKwargs
  | [] => .nil
  | (k, e) :: es => .cons k e (PKwargs.ofL es)

/-- Convert a standard list of subscript components into a `PIdxs` list. -/
def PIdxs.ofL : List PIdx → PIdxs
  | [] => .nil
  | i :: is => .cons i (PIdxs.ofL is)

/-- Convert a standard list of statements into a `Stmts` list. -/
def Stmts.ofL : List Stmt → Stmts
  | [] => .nil
  | s :: ss => .cons s (Stmts.ofL ss)

/-- Convert a `Stmts` list back to a standard list. -/
def Stmts.toL : Stmts → List Stmt
  | .nil => []
  | .cons s ss => s :: ss.toL

/-- Integer literal, e.g. `20` is `intL 20`. -/
def intL (n : Int) : PExpr := .num n 0

/-- Variable reference. -/
def nm (x : String) : PExpr := .name x

/-- Call with positional and keyword arguments given as standard lists. -/
def callK (f : PExpr) (args : List PExpr) (kw : List (String × PExpr)) : PExpr :=
  .call f (PArgs.ofL args) (PKwargs.ofL kw)

/-- Call with positional arguments only. -/
def callP (f : PExpr) (args : List PExpr) : PExpr := callK f args []

/-- Method call `e.m(args)` with positional arguments. -/
def meth (e : PExpr) (m : String) (args : List PExpr) : PExpr :=
  callP (.atr e m) args

/-- Method call `e.m(args, kw...)` with keyword arguments. -/
def methK (e : PExpr) (m : String) (args : List PExpr) (kw : List (String × PExpr)) : PExpr :=
  callK (.atr e m) args kw

/-- Subscript `e[idxs]` with components given as a standard list. -/
def subE (e : PExpr) (idxs : List PIdx) : PExpr := .subscript e (PIdxs.ofL idxs)

/-- Tuple expression with components given as a standard list. -/
def tupE (es : List PExpr) : PExpr := .tup (PArgs.ofL es)

/-- List display expression with components given as a standard list. -/
def listL (es : List PExpr) : PExpr := .listE (PArgs.ofL es)

/-- Conditional statement with the body given as a standard list. -/
def Stmt.ifL (cond : PExpr) (body : List Stmt) : Stmt := .ifStmt cond (Stmts.ofL body)

mutual

/-- All identifiers read inside an expression: variable names and
attribute/method names.  Keyword-argument keys are not identifiers and are
not collected. -/
def PExpr.namesE : PExpr → List String
  | .num _ _ => []
  | .str _ => []
  | .boolLit _ => []
  | .name x => [x]
  | .atr e f => f :: e.namesE
  | .call f a k => f.namesE ++ PArgs.namesA a ++ PKwargs.namesK k
  | .binop _ a b => a.namesE ++ b.namesE
  | .subscript e i => e.namesE ++ PIdxs.namesI i
  | .tup es => PArgs.namesA es
  | .listE es => PArgs.namesA es

/-- Identifiers read inside a positional-argument list. -/
def PArgs.namesA : PArgs → List String
  | .nil => []
  | .cons e es => e.namesE ++ PArgs.namesA es

/-- Identifiers read inside a keyword-argument list. -/
def PKwargs.namesK : PKwargs → List String
  | .nil => []
  | .cons _ e es => e.namesE ++ PKwargs.namesK es

/-- Identifiers read inside a subscript. -/
def PIdxs.namesI : PIdxs → List String
  | .nil => []
  | .cons i is => PIdx.namesX i ++ PIdxs.namesI is

/-- Identifiers read inside one subscript component. -/
def PIdx.namesX : PIdx → List String
  | .ix e => e.namesE
  | .sliceAll => []
  | .sliceStep e => e.namesE
  | .sliceTo e => e.namesE

end

mutual

/-- All identifiers occurring in a statement, both read and written. -/
def Stmt.namesS : Stmt → List String
  | .importMod m a => m :: a.toList
  | .fromImport m i a => m :: i :: a.toList
  | .assign t e => t :: e.namesE
  | .assignTup ts e => ts ++ e.namesE
  | .setItemAll t e => t :: e.namesE
  | .exprStmt e => e.namesE
  | .ifStmt c b => c.namesE ++ Stmts.namesSS b
  | .forStmt v it b => v :: it.namesE ++ Stmts.namesSS b
  | .whileStmt c b => c.namesE ++ Stmts.namesSS b
  | .tryStmt b h => Stmts.namesSS b ++ Stmts.namesSS h

/-- All identifiers occurring in a statement list. -/
def Stmts.namesSS : Stmts → List String
  | .nil => []
  | .cons s ss => s.namesS ++ Stmts.namesSS ss

end

mutual

/-- Flatten a statement, inlining the bodies of compound statements in
source order. -/
def Stmt.flat : Stmt → List Stmt
  | .ifStmt _ b => Stmts.flatSS b
  | .forStmt _ _ b => Stmts.flatSS b
  | .whileStmt _ b => Stmts.flatSS b
  | .tryStmt b h => Stmts.flatSS b ++ Stmts.flatSS h
  | s => [s]

/-- Flatten a statement list. -/
def Stmts.flatSS : Stmts → List Stmt
  | .nil => []
  | .cons s ss => s.flat ++ Stmts.flatSS ss

end

/-- Flatten a script given as a standard statement list. -/
def flattenScript (l : List Stmt) : List Stmt := (l.map Stmt.flat).flatten

mutual

/-- Number of `if` statements, nested ones included. -/
def Stmt.countIf : Stmt → Nat
  | .ifStmt _ b => 1 + Stmts.countIfSS b
  | .forStmt _ _ b => Stmts.countIfSS b
  | .whileStmt _ b => Stmts.countIfSS b
  | .tryStmt b h => Stmts.countIfSS b + Stmts.countIfSS h
  | _ => 0

/-- Number of `if` statements in a statement list. -/
def Stmts.countIfSS : Stmts → Nat
  | .nil => 0
  | .cons s ss => s.countIf + Stmts.countIfSS ss

end

mutual

/-- Number of `try` statements, nested ones included. -/
def Stmt.countTry : Stmt → Nat
  | .ifStmt _ b => Stmts.countTrySS b
  | .forStmt _ _ b => Stmts.countTrySS b
  | .whileStmt _ b => Stmts.countTrySS b
  | .tryStmt b h => 1 + Stmts.countTrySS b + Stmts.countTrySS h
  | _ => 0

/-- Number of `try` statements in a statement list. -/
def Stmts.countTrySS : Stmts → Nat
  | .nil => 0
  | .cons s ss => s.countTry + Stmts.countTrySS ss

end

mutual

/-- Number of loop statements (`for` or `while`), nested ones included. -/
def Stmt.countLoop : Stmt → Nat
  | .ifStmt _ b => Stmts.countLoopSS b
  | .forStmt _ _ b => 1 + Stmts.countLoopSS b
  | .whileStmt _ b => 1 + Stmts.countLoopSS b
  | .tryStmt b h => Stmts.countLoopSS b + Stmts.countLoopSS h
  | _ => 0

/-- Number of loop statements in a statement list. -/
def Stmts.countLoopSS : Stmts → Nat
  | .nil => 0
  | .cons s ss => s.countLoop + Stmts.countLoopSS ss

end

/-- Total `if` count of a script given as a standard statement list. -/
def scriptCountIf (l : List Stmt) : Nat := (l.map Stmt.countIf).sum

/-- Total `try` count of a script given as a standard statement list. -/
def scriptCountTry (l : List Stmt) : Nat := (l.map Stmt.countTry).sum

/-- Total loop count of a script given as a standard statement list. -/
def scriptCountLoop (l : List Stmt) : Nat := (l.map Stmt.countLoop).sum

/-- Remove the elements of a list sitting at the given (0-based) indices. -/
def removeIdxs (idxs : List Nat) (l : List Stmt) : List Stmt :=
  (l.enum.filter (fun p => !(idxs.contains p.1))).map (·.2)

example : removeIdxs [1] [Stmt.assign "a" (intL 1), Stmt.assign "b" (intL 2)]
    = [Stmt.assign "a" (intL 1)] := by decide

/-! ## Shared transcription shorthands

These abbreviations stand for source fragments that occur repeatedly in
both scripts; each expands to the exact AST of the fragment named in its
doc comment. -/

/-- The expression `ny * nx * nz` (Python `*` is left-associative). -/
def nyNxNzE : PExpr := .binop "*" (.binop "*" (nm "ny") (nm "nx")) (nm "nz")

/-- The expression `filtfilt(np.ones(n) / float(n), 1, arr, axis=ax)`. -/
def filtfiltE (n arr : PExpr) (ax : Int) : PExpr :=
  callK (nm "filtfilt")
    [.binop "/" (callP (.atr (nm "np") "ones") [n]) (callP (nm "float") [n]), intL 1, arr]
    [("axis", intL ax)]

/-- The expression `pylops_mpi.optimization.basic.s` for a solver name `s`. -/
def solverF (s : String) : PExpr :=
  .atr (.atr (.atr (nm "pylops_mpi") "optimization") "basic") s

/-- The expression `v.asarray().reshape((ny, nx, nz))`. -/
def asarrayReshapeE (v : String) : PExpr :=
  meth (meth (nm v) "asarray" []) "reshape" [tupE [nm "ny", nm "nx", nm "nz"]]

/-- The expression `axs[r][c]`. -/
def axsAt (r c : Int) : PExpr := subE (subE (nm "axs") [.ix (intL r)]) [.ix (intL c)]

/-- The index `[5, :, :]` picking an x-z section. -/
def idxXZ : List PIdx := [.ix (intL 5), .sliceAll, .sliceAll]

/-- The index `[:, 200, :]` picking a y-z section. -/
def idxYZ : List PIdx := [.sliceAll, .ix (intL 200), .sliceAll]

/-- The index `[:, :, 220]` picking an x-y section. -/
def idxXY : List PIdx := [.sliceAll, .sliceAll, .ix (intL 220)]

/-- The expression `v[idx].T` for a CPU-resident array. -/
def sliceT (v : String) (idx : List PIdx) : PExpr := .atr (subE (nm v) idx) "T"

/-- The expression `v[idx].T.get()` for a GPU-resident array. -/
def sliceTget (v : String) (idx : List PIdx) : PExpr :=
  meth (.atr (subE (nm v) idx) "T") "get" []

/-- The expressions `m.min()` and `m.max()` used as colour limits. -/
def mMinE : PExpr := meth (nm "m") "min" []

/-- See `mMinE`. -/
def mMaxE : PExpr := meth (nm "m") "max" []

/-- One row of the final figure: for each of the three section indices, the
statements `axs[r][c].imshow(arr, cmap=..., vmin=..., vmax=...)`,
`axs[r][c].set_title(...)` and `axs[r][c].axis("tight")`. -/
def panel3 (r : Int) (mk : List PIdx → PExpr) (cmap : String) (vmin vmax : PExpr)
    (t1 t2 t3 : String) : List Stmt :=
  [ .exprStmt (methK (axsAt r 0) "imshow" [mk idxXZ]
      [("cmap", .str cmap), ("vmin", vmin), ("vmax", vmax)]),
    .exprStmt (meth (axsAt r 0) "set_title" [.str t1]),
    .exprStmt (meth (axsAt r 0) "axis" [.str "tight"]),
    .exprStmt (methK (axsAt r 1) "imshow" [mk idxYZ]
      [("cmap", .str cmap), ("vmin", vmin), ("vmax", vmax)]),
    .exprStmt (meth (axsAt r 1) "set_title" [.str t2]),
    .exprStmt (meth (axsAt r 1) "axis" [.str "tight"]),
    .exprStmt (methK (axsAt r 2) "imshow" [mk idxXY]
      [("cmap", .str cmap), ("vmin", vmin), ("vmax", vmax)]),
    .exprStmt (meth (axsAt r 2) "set_title" [.str t3]),
    .exprStmt (meth (axsAt r 2) "axis" [.str "tight"]) ]

/-! ## The CUDA-aware-MPI script `tutorials_cupy/poststack_cupy.py` -/

/-- Import block of `poststack_cupy.py` (lines 9-19). -/
def cupyImports : List Stmt :=
  [ .importMod "numpy" (some "np"),
    .importMod "cupy" (some "cp"),
    .fromImport "scipy.signal" "filtfilt" none,
    .fromImport "matplotlib" "pyplot" (some "plt"),
    .fromImport "mpi4py" "MPI" none,
    .fromImport "pylops.utils.wavelets" "ricker" none,
    .fromImport "pylops.basicoperators" "Transpose" none,
    .fromImport "pylops.avo.poststack" "PoststackLinearModelling" none,
    .importMod "pylops_mpi" none ]

/-- Initialization block of `poststack_cupy.py` (lines 30-33): close the
figures, read the MPI rank, and attach a GPU to the process. -/
def cupyInit : List Stmt :=
  [ .exprStmt (meth (nm "plt") "close" [.str "all"]),
    .assign "rank" (meth (.atr (nm "MPI") "COMM_WORLD") "Get_rank" []),
    .assign "device_count" (meth (.atr (.atr (nm "cp") "cuda") "runtime") "getDeviceCount" []),
    .exprStmt (meth (callP (.atr (.atr (nm "cp") "cuda") "Device")
      [.binop "%" (nm "rank") (nm "device_count")]) "use" []) ]

/-- Model-preparation block of `poststack_cupy.py` (lines 42-68): load the
npz file, build the logarithmic decimated 2D model, tile it into the local
3D model, smooth it with three `filtfilt` passes, build the wavelet, and
gather the global models. -/
def cupyModelBlock : List Stmt :=
  [ .assign "model" (callP (.atr (nm "np") "load") [.str "../testdata/avo/poststack_model.npz"]),
    .assignTup ["x", "z", "m"] (tupE
      [ subE (subE (nm "model") [.ix (.str "x")]) [.sliceStep (intL 3)],
        subE (nm "model") [.ix (.str "z")],
        subE (callP (.atr (nm "np") "log") [subE (nm "model") [.ix (.str "model")]])
          [.sliceAll, .sliceStep (intL 3)] ]),
    .assign "ny_i" (intL 20),
    .assign "y" (callP (.atr (nm "np") "arange") [nm "ny_i"]),
    .assign "m3d_i" (meth (callP (.atr (nm "np") "tile")
      [ subE (nm "m") [.sliceAll, .sliceAll, .ix (.atr (nm "np") "newaxis")],
        tupE [intL 1, intL 1, nm "ny_i"] ]) "transpose" [tupE [intL 2, intL 1, intL 0]]),
    .assignTup ["ny_i", "nx", "nz"] (.atr (nm "m3d_i") "shape"),
    .assign "ny" (meth (.atr (nm "MPI") "COMM_WORLD") "allreduce" [nm "ny_i"]),
    .assignTup ["nsmoothy", "nsmoothx", "nsmoothz"] (tupE [intL 5, intL 30, intL 20]),
    .assign "mback3d_i" (filtfiltE (nm "nsmoothy") (nm "m3d_i") 0),
    .assign "mback3d_i" (filtfiltE (nm "nsmoothx") (nm "mback3d_i") 1),
    .assign "mback3d_i" (filtfiltE (nm "nsmoothz") (nm "mback3d_i") 2),
    .assign "dt" (.num 4 (-3)),
    .assign "t0" (.binop "*" (callP (.atr (nm "np") "arange") [nm "nz"]) (nm "dt")),
    .assign "ntwav" (intL 41),
    .assign "wav" (subE (callP (nm "ricker")
      [ subE (nm "t0") [.sliceTo (.binop "+" (.binop "//" (nm "ntwav") (intL 2)) (intL 1))],
        intL 15 ]) [.ix (intL 0)]),
    .assign "m3d" (callP (.atr (nm "np") "concatenate")
      [meth (.atr (nm "MPI") "COMM_WORLD") "allgather" [nm "m3d_i"]]),
    .assign "mback3d" (callP (.atr (nm "np") "concatenate")
      [meth (.atr (nm "MPI") "COMM_WORLD") "allgather" [nm "mback3d_i"]]) ]

/-- Distributed-array block of `poststack_cupy.py` (lines 75-83): build the
two `DistributedArray` objects and fill them with the local tiles. -/
def cupyDistBlock : List Stmt :=
  [ .assign "m3d_dist" (callK (.atr (nm "pylops_mpi") "DistributedArray") []
      [("global_shape", nyNxNzE), ("engine", .str "cupy")]),
    .setItemAll "m3d_dist" (callP (.atr (nm "cp") "asarray") [meth (nm "m3d_i") "flatten" []]),
    .assign "mback3d_dist" (callK (.atr (nm "pylops_mpi") "DistributedArray") []
      [("global_shape", nyNxNzE), ("engine", .str "cupy")]),
    .setItemAll "mback3d_dist" (callP (.atr (nm "cp") "asarray") [meth (nm "mback3d_i") "flatten" []]) ]

/-- Operator block of `poststack_cupy.py` (lines 90-93): the poststack
operator on a float32 GPU wavelet, the `Transpose` operator, and the MPI
block-diagonal wrapper around the conjugated operator. -/
def cupyOpBlock : List Stmt :=
  [ .assign "PPop" (callK (nm "PoststackLinearModelling")
      [callP (.atr (nm "cp") "asarray") [meth (nm "wav") "astype" [.atr (nm "np") "float32"]]]
      [("nt0", nm "nz"), ("spatdims", tupE [nm "ny_i", nm "nx"])]),
    .assign "Top" (callP (nm "Transpose")
      [tupE [nm "ny_i", nm "nx", nm "nz"], tupE [intL 2, intL 0, intL 1]]),
    .assign "BDiag" (callK (.atr (.atr (nm "pylops_mpi") "basicoperators") "MPIBlockDiag") []
      [("ops", listL [.binop "@" (.binop "@" (.atr (nm "Top") "H") (nm "PPop")) (nm "Top")])]) ]

/-- Forward-modelling block of `poststack_cupy.py` (lines 100-104). -/
def cupyForwardBlock : List Stmt :=
  [ .assign "d_dist" (.binop "@" (nm "BDiag") (nm "m3d_dist")),
    .assign "d_local" (meth (.atr (nm "d_dist") "local_array") "reshape"
      [tupE [nm "ny_i", nm "nx", nm "nz"]]),
    .assign "d" (asarrayReshapeE "d_dist"),
    .assign "d_0_dist" (.binop "@" (nm "BDiag") (nm "mback3d_dist")),
    .assign "d_0" (asarrayReshapeE "d_dist") ]

/-- Inversion block of `poststack_cupy.py` (lines 113-145): the CGLS
inversion, the normal-equations CG inversion, and the regularized stacked
CGLS inversion. -/
def cupyInvBlock : List Stmt :=
  [ .assign "minv3d_iter_dist" (subE (callK (solverF "cgls")
      [nm "BDiag", nm "d_dist"]
      [("x0", nm "mback3d_dist"), ("niter", intL 100), ("show", .boolLit true)]) [.ix (intL 0)]),
    .assign "minv3d_iter" (asarrayReshapeE "minv3d_iter_dist"),
    .assign "epsR" (.num 1 2),
    .assign "LapOp" (callK (.atr (nm "pylops_mpi") "MPILaplacian") []
      [ ("dims", tupE [nm "ny", nm "nx", nm "nz"]),
        ("axes", tupE [intL 0, intL 1, intL 2]),
        ("weights", tupE [intL 1, intL 1, intL 1]),
        ("sampling", tupE [intL 1, intL 1, intL 1]),
        ("dtype", .atr (nm "BDiag") "dtype") ]),
    .assign "NormEqOp" (.binop "+"
      (.binop "@" (.atr (nm "BDiag") "H") (nm "BDiag"))
      (.binop "@" (.binop "*" (nm "epsR") (.atr (nm "LapOp") "H")) (nm "LapOp"))),
    .assign "dnorm_dist" (.binop "@" (.atr (nm "BDiag") "H") (nm "d_dist")),
    .assign "minv3d_ne_dist" (subE (callK (solverF "cg")
      [nm "NormEqOp", nm "dnorm_dist"]
      [("x0", nm "mback3d_dist"), ("niter", intL 100), ("show", .boolLit true)]) [.ix (intL 0)]),
    .assign "minv3d_ne" (asarrayReshapeE "minv3d_ne_dist"),
    .assign "StackOp" (callP (.atr (nm "pylops_mpi") "MPIStackedVStack")
      [listL [nm "BDiag", .binop "*" (callP (.atr (nm "np") "sqrt") [nm "epsR"]) (nm "LapOp")]]),
    .assign "d0_dist" (callK (.atr (nm "pylops_mpi") "DistributedArray") []
      [("global_shape", nyNxNzE), ("engine", .str "cupy")]),
    .setItemAll "d0_dist" (.num 0 0),
    .assign "dstack_dist" (callP (.atr (nm "pylops_mpi") "StackedDistributedArray")
      [listL [nm "d_dist", nm "d0_dist"]]),
    .assign "dnorm_dist" (.binop "@" (.atr (nm "BDiag") "H") (nm "d_dist")),
    .assign "minv3d_reg_dist" (subE (callK (solverF "cgls")
      [nm "StackOp", nm "dstack_dist"]
      [("x0", nm "mback3d_dist"), ("niter", intL 100), ("show", .boolLit true)]) [.ix (intL 0)]),
    .assign "minv3d_reg" (asarrayReshapeE "minv3d_reg_dist") ]

/-- Body of the `rank == 0` block of `poststack_cupy.py` (lines 152-222):
the local reference modelling, the two comparison prints (with
`cp.asnumpy` conversion and `atol=1e-6`), and the figure. -/
def cupyIfBody : List Stmt :=
  [ .assign "PPop0" (callK (nm "PoststackLinearModelling") [nm "wav"]
      [("nt0", nm "nz"), ("spatdims", tupE [nm "ny", nm "nx"])]),
    .assign "d0" (meth (.binop "@" (nm "PPop0")
      (meth (nm "m3d") "transpose" [intL 2, intL 0, intL 1])) "transpose"
      [intL 1, intL 2, intL 0]),
    .assign "d0_0" (meth (.binop "@" (nm "PPop0")
      (meth (nm "m3d") "transpose" [intL 2, intL 0, intL 1])) "transpose"
      [intL 1, intL 2, intL 0]),
    .exprStmt (callP (nm "print")
      [ .str "Distr == Local",
        callK (.atr (nm "np") "allclose")
          [callP (.atr (nm "cp") "asnumpy") [nm "d"], nm "d0"] [("atol", .num 1 (-6))] ]),
    .exprStmt (callP (nm "print")
      [ .str "Smooth Distr == Local",
        callK (.atr (nm "np") "allclose")
          [callP (.atr (nm "cp") "asnumpy") [nm "d_0"], nm "d0_0"] [("atol", .num 1 (-6))] ]),
    .assignTup ["fig", "axs"] (callK (.atr (nm "plt") "subplots") []
      [ ("nrows", intL 6), ("ncols", intL 3), ("figsize", tupE [intL 9, intL 14]),
        ("constrained_layout", .boolLit true) ]) ]
  ++ panel3 0 (sliceT "m3d") "gist_rainbow" mMinE mMaxE
      "Model x-z" "Model y-z" "Model y-z"
  ++ panel3 1 (sliceT "mback3d") "gist_rainbow" mMinE mMaxE
      "Smooth Model x-z" "Smooth Model y-z" "Smooth Model y-z"
  ++ panel3 2 (sliceTget "d") "gray" (intL (-1)) (intL 1)
      "Data x-z" "Data y-z" "Data x-y"
  ++ panel3 3 (sliceTget "minv3d_iter") "gist_rainbow" mMinE mMaxE
      "Inverted Model iter x-z" "Inverted Model iter y-z" "Inverted Model iter x-y"
  ++ panel3 4 (sliceTget "minv3d_ne") "gist_rainbow" mMinE mMaxE
      "Normal Equations Inverted Model iter x-z" "Normal Equations Inverted Model iter y-z"
      "Normal Equations Inverted Model iter x-y"
  ++ panel3 5 (sliceTget "minv3d_reg") "gist_rainbow" mMinE mMaxE
      "Regularized Inverted Model iter x-z" "Regularized Inverted Model iter y-z"
      "Regularized Inverted Model iter x-y"

/-- Everything in `poststack_cupy.py` after the initialization block, from
the model load on, ending with the `rank == 0` conditional. -/
def cupyAfterInit : List Stmt :=
  cupyModelBlock ++ cupyDistBlock ++ cupyOpBlock ++ cupyForwardBlock ++ cupyInvBlock
    ++ [Stmt.ifL (.binop "==" (nm "rank") (intL 0)) cupyIfBody]

/-- The whole of `poststack_cupy.py`, statement by statement. -/
def cupyScript : List Stmt := cupyImports ++ cupyInit ++ cupyAfterInit

/-- The statements of `poststack_cupy.py` in execution order with the
conditional body inlined. -/
def cupyFlat : List Stmt := flattenScript cupyScript

/-! ## The NCCL script `tutorials_nccl/poststack_nccl.py` -/

/-- Import block of `poststack_nccl.py` (lines 9-19), identical to that
of the MPI script. -/
def ncclImports : List Stmt :=
  [ .importMod "numpy" (some "np"),
    .importMod "cupy" (some "cp"),
    .fromImport "scipy.signal" "filtfilt" none,
    .fromImport "matplotlib" "pyplot" (some "plt"),
    .fromImport "mpi4py" "MPI" none,
    .fromImport "pylops.utils.wavelets" "ricker" none,
    .fromImport "pylops.basicoperators" "Transpose" none,
    .fromImport "pylops.avo.poststack" "PoststackLinearModelling" none,
    .importMod "pylops_mpi" none ]

/-- Initialization block of `poststack_nccl.py` (lines 26-28): close the
figures, build the NCCL communicator, and read the MPI rank. -/
def ncclInit : List Stmt :=
  [ .exprStmt (meth (nm "plt") "close" [.str "all"]),
    .assign "nccl_comm" (meth (.atr (.atr (nm "pylops_mpi") "utils") "_nccl")
      "initialize_nccl_comm" []),
    .assign "rank" (meth (.atr (nm "MPI") "COMM_WORLD") "Get_rank" []) ]

/-- Model-preparation block of `poststack_nccl.py` (lines 37-63), textually
identical to the corresponding block of the MPI script. -/
def ncclModelBlock : List Stmt :=
  [ .assign "model" (callP (.atr (nm "np") "load") [.str "../testdata/avo/poststack_model.npz"]),
    .assignTup ["x", "z", "m"] (tupE
      [ subE (subE (nm "model") [.ix (.str "x")]) [.sliceStep (intL 3)],
        subE (nm "model") [.ix (.str "z")],
        subE (callP (.atr (nm "np") "log") [subE (nm "model") [.ix (.str "model")]])
          [.sliceAll, .sliceStep (intL 3)] ]),
    .assign "ny_i" (intL 20),
    .assign "y" (callP (.atr (nm "np") "arange") [nm "ny_i"]),
    .assign "m3d_i" (meth (callP (.atr (nm "np") "tile")
      [ subE (nm "m") [.sliceAll, .sliceAll, .ix (.atr (nm "np") "newaxis")],
        tupE [intL 1, intL 1, nm "ny_i"] ]) "transpose" [tupE [intL 2, intL 1, intL 0]]),
    .assignTup ["ny_i", "nx", "nz"] (.atr (nm "m3d_i") "shape"),
    .assign "ny" (meth (.atr (nm "MPI") "COMM_WORLD") "allreduce" [nm "ny_i"]),
    .assignTup ["nsmoothy", "nsmoothx", "nsmoothz"] (tupE [intL 5, intL 30, intL 20]),
    .assign "mback3d_i" (filtfiltE (nm "nsmoothy") (nm "m3d_i") 0),
    .assign "mback3d_i" (filtfiltE (nm "nsmoothx") (nm "mback3d_i") 1),
    .assign "mback3d_i" (filtfiltE (nm "nsmoothz") (nm "mback3d_i") 2),
    .assign "dt" (.num 4 (-3)),
    .assign "t0" (.binop "*" (callP (.atr (nm "np") "arange") [nm "nz"]) (nm "dt")),
    .assign "ntwav" (intL 41),
    .assign "wav" (subE (callP (nm "ricker")
      [ subE (nm "t0") [.sliceTo (.binop "+" (.binop "//" (nm "ntwav") (intL 2)) (intL 1))],
        intL 15 ]) [.ix (intL 0)]),
    .assign "m3d" (callP (.atr (nm "np") "concatenate")
      [meth (.atr (nm "MPI") "COMM_WORLD") "allgather" [nm "m3d_i"]]),
    .assign "mback3d" (callP (.atr (nm "np") "concatenate")
      [meth (.atr (nm "MPI") "COMM_WORLD") "allgather" [nm "mback3d_i"]]) ]

/-- Distributed-array block of `poststack_nccl.py` (lines 71-81): as in the
MPI script but with the extra `base_comm_nccl=nccl_comm` keyword argument
in both constructor calls. -/
def ncclDistBlock : List Stmt :=
  [ .assign "m3d_dist" (callK (.atr (nm "pylops_mpi") "DistributedArray") []
      [("global_shape", nyNxNzE), ("base_comm_nccl", nm "nccl_comm"), ("engine", .str "cupy")]),
    .setItemAll "m3d_dist" (callP (.atr (nm "cp") "asarray") [meth (nm "m3d_i") "flatten" []]),
    .assign "mback3d_dist" (callK (.atr (nm "pylops_mpi") "DistributedArray") []
      [("global_shape", nyNxNzE), ("base_comm_nccl", nm "nccl_comm"), ("engine", .str "cupy")]),
    .setItemAll "mback3d_dist" (callP (.atr (nm "cp") "asarray") [meth (nm "mback3d_i") "flatten" []]) ]

/-- Operator block of `poststack_nccl.py` (lines 88-91): the wavelet is
passed by keyword as `wav=cp.asarray(wav)` with no float32 cast. -/
def ncclOpBlock : List Stmt :=
  [ .assign "PPop" (callK (nm "PoststackLinearModelling") []
      [ ("wav", callP (.atr (nm "cp") "asarray") [nm "wav"]),
        ("nt0", nm "nz"), ("spatdims", tupE [nm "ny_i", nm "nx"]) ]),
    .assign "Top" (callP (nm "Transpose")
      [tupE [nm "ny_i", nm "nx", nm "nz"], tupE [intL 2, intL 0, intL 1]]),
    .assign "BDiag" (callK (.atr (.atr (nm "pylops_mpi") "basicoperators") "MPIBlockDiag") []
      [("ops", listL [.binop "@" (.binop "@" (.atr (nm "Top") "H") (nm "PPop")) (nm "Top")])]) ]

/-- Forward-modelling block of `poststack_nccl.py` (lines 98-102),
textually identical to the corresponding block of the MPI script. -/
def ncclForwardBlock : List Stmt :=
  [ .assign "d_dist" (.binop "@" (nm "BDiag") (nm "m3d_dist")),
    .assign "d_local" (meth (.atr (nm "d_dist") "local_array") "reshape"
      [tupE [nm "ny_i", nm "nx", nm "nz"]]),
    .assign "d" (asarrayReshapeE "d_dist"),
    .assign "d_0_dist" (.binop "@" (nm "BDiag") (nm "mback3d_dist")),
    .assign "d_0" (asarrayReshapeE "d_dist") ]

/-- Inversion block of `poststack_nccl.py` (lines 111-144): as in the MPI
script but with the extra `base_comm_nccl=nccl_comm` keyword argument in
the `d0_dist` constructor call. -/
def ncclInvBlock : List Stmt :=
  [ .assign "minv3d_iter_dist" (subE (callK (solverF "cgls")
      [nm "BDiag", nm "d_dist"]
      [("x0", nm "mback3d_dist"), ("niter", intL 100), ("show", .boolLit true)]) [.ix (intL 0)]),
    .assign "minv3d_iter" (asarrayReshapeE "minv3d_iter_dist"),
    .assign "epsR" (.num 1 2),
    .assign "LapOp" (callK (.atr (nm "pylops_mpi") "MPILaplacian") []
      [ ("dims", tupE [nm "ny", nm "nx", nm "nz"]),
        ("axes", tupE [intL 0, intL 1, intL 2]),
        ("weights", tupE [intL 1, intL 1, intL 1]),
        ("sampling", tupE [intL 1, intL 1, intL 1]),
        ("dtype", .atr (nm "BDiag") "dtype") ]),
    .assign "NormEqOp" (.binop "+"
      (.binop "@" (.atr (nm "BDiag") "H") (nm "BDiag"))
      (.binop "@" (.binop "*" (nm "epsR") (.atr (nm "LapOp") "H")) (nm "LapOp"))),
    .assign "dnorm_dist" (.binop "@" (.atr (nm "BDiag") "H") (nm "d_dist")),
    .assign "minv3d_ne_dist" (subE (callK (solverF "cg")
      [nm "NormEqOp", nm "dnorm_dist"]
      [("x0", nm "mback3d_dist"), ("niter", intL 100), ("show", .boolLit true)]) [.ix (intL 0)]),
    .assign "minv3d_ne" (asarrayReshapeE "minv3d_ne_dist"),
    .assign "StackOp" (callP (.atr (nm "pylops_mpi") "MPIStackedVStack")
      [listL [nm "BDiag", .binop "*" (callP (.atr (nm "np") "sqrt") [nm "epsR"]) (nm "LapOp")]]),
    .assign "d0_dist" (callK (.atr (nm "pylops_mpi") "DistributedArray") []
      [("global_shape", nyNxNzE), ("base_comm_nccl", nm "nccl_comm"), ("engine", .str "cupy")]),
    .setItemAll "d0_dist" (.num 0 0),
    .assign "dstack_dist" (callP (.atr (nm "pylops_mpi") "StackedDistributedArray")
      [listL [nm "d_dist", nm "d0_dist"]]),
    .assign "dnorm_dist" (.binop "@" (.atr (nm "BDiag") "H") (nm "d_dist")),
    .assign "minv3d_reg_dist" (subE (callK (solverF "cgls")
      [nm "StackOp", nm "dstack_dist"]
      [("x0", nm "mback3d_dist"), ("niter", intL 100), ("show", .boolLit true)]) [.ix (intL 0)]),
    .assign "minv3d_reg" (asarrayReshapeE "minv3d_reg_dist") ]

/-- Body of the `rank == 0` block of `poststack_nccl.py` (lines 151-221):
as in the MPI script except that the two comparison prints call
`np.allclose(d, d0)` and `np.allclose(d_0, d0_0)` directly, with default
tolerances and no `cp.asnumpy` conversion. -/
def ncclIfBody : List Stmt :=
  [ .assign "PPop0" (callK (nm "PoststackLinearModelling") [nm "wav"]
      [("nt0", nm "nz"), ("spatdims", tupE [nm "ny", nm "nx"])]),
    .assign "d0" (meth (.binop "@" (nm "PPop0")
      (meth (nm "m3d") "transpose" [intL 2, intL 0, intL 1])) "transpose"
      [intL 1, intL 2, intL 0]),
    .assign "d0_0" (meth (.binop "@" (nm "PPop0")
      (meth (nm "m3d") "transpose" [intL 2, intL 0, intL 1])) "transpose"
      [intL 1, intL 2, intL 0]),
    .exprStmt (callP (nm "print")
      [ .str "Distr == Local",
        callP (.atr (nm "np") "allclose") [nm "d", nm "d0"] ]),
    .exprStmt (callP (nm "print")
      [ .str "Smooth Distr == Local",
        callP (.atr (nm "np") "allclose") [nm "d_0", nm "d0_0"] ]),
    .assignTup ["fig", "axs"] (callK (.atr (nm "plt") "subplots") []
      [ ("nrows", intL 6), ("ncols", intL 3), ("figsize", tupE [intL 9, intL 14]),
        ("constrained_layout", .boolLit true) ]) ]
  ++ panel3 0 (sliceT "m3d") "gist_rainbow" mMinE mMaxE
      "Model x-z" "Model y-z" "Model y-z"
  ++ panel3 1 (sliceT "mback3d") "gist_rainbow" mMinE mMaxE
      "Smooth Model x-z" "Smooth Model y-z" "Smooth Model y-z"
  ++ panel3 2 (sliceTget "d") "gray" (intL (-1)) (intL 1)
      "Data x-z" "Data y-z" "Data x-y"
  ++ panel3 3 (sliceTget "minv3d_iter") "gist_rainbow" mMinE mMaxE
      "Inverted Model iter x-z" "Inverted Model iter y-z" "Inverted Model iter x-y"
  ++ panel3 4 (sliceTget "minv3d_ne") "gist_rainbow" mMinE mMaxE
      "Normal Equations Inverted Model iter x-z" "Normal Equations Inverted Model iter y-z"
      "Normal Equations Inverted Model iter x-y"
  ++ panel3 5 (sliceTget "minv3d_reg") "gist_rainbow" mMinE mMaxE
      "Regularized Inverted Model iter x-z" "Regularized Inverted Model iter y-z"
      "Regularized Inverted Model iter x-y"

/-- Everything in `poststack_nccl.py` after the initialization block, from
the model load on, ending with the `rank == 0` conditional. -/
def ncclAfterInit : List Stmt :=
  ncclModelBlock ++ ncclDistBlock ++ ncclOpBlock ++ ncclForwardBlock ++ ncclInvBlock
    ++ [Stmt.ifL (.binop "==" (nm "rank") (intL 0)) ncclIfBody]

/-- The whole of `poststack_nccl.py`, statement by statement. -/
def ncclScript : List Stmt := ncclImports ++ ncclInit ++ ncclAfterInit

/-- The statements of `poststack_nccl.py` in execution order with the
conditional body inlined. -/
def ncclFlat : List Stmt := flattenScript ncclScript

/-! ## Layer B: semantic embedding of the dataflow

Arrays are shaped index functions; entries live in an arbitrary scalar
type `α` so that every theorem below holds for any floating-point
semantics.  Entry functions are total; only indices below the recorded
sizes are meaningful. -/

/-- A 1-D numpy array over scalars `α`. -/
structure Arr1 (α : Type) where
  size : Nat
  entry : Nat → α

/-- A 2-D numpy array over scalars `α`. -/
structure Arr2 (α : Type) where
  d1 : Nat
  d2 : Nat
  entry : Nat → Nat → α

/-- A 3-D numpy array over scalars `α`. -/
structure Arr3 (α : Type) where
  d1 : Nat
  d2 : Nat
  d3 : Nat
  entry : Nat → Nat → Nat → α

/-- Numpy basic slicing `a[::3]` on a 1-D array: every third element,
`ceil(size / 3)` of them. -/
def npSliceStep3A1 {α : Type} (a : Arr1 α) : Arr1 α :=
  ⟨(a.size + 2) / 3, fun i => a.entry (3 * i)⟩

/-- Numpy basic slicing `m[:, ::3]` on a 2-D array. -/
def npSliceStep3Cols {α : Type} (m : Arr2 α) : Arr2 α :=
  ⟨m.d1, (m.d2 + 2) / 3, fun i j => m.entry i (3 * j)⟩

/-- Elementwise `np.log` on a 2-D array, for an abstract scalar logarithm. -/
def npLog2 {α : Type} (log : α → α) (m : Arr2 α) : Arr2 α :=
  ⟨m.d1, m.d2, fun i j => log (m.entry i j)⟩

/-- Numpy `m[:, :, np.newaxis]`: add a trailing axis of size one. -/
def npNewaxis3 {α : Type} (m : Arr2 α) : Arr3 α :=
  ⟨m.d1, m.d2, 1, fun i j _ => m.entry i j⟩

/-- Numpy `np.tile(t, (1, 1, k))`: repeat a 3-D array `k` times along the
last axis; the entry at third index `r` comes from `r mod t.d3`. -/
def npTile113 {α : Type} (t : Arr3 α) (k : Nat) : Arr3 α :=
  ⟨t.d1, t.d2, t.d3 * k, fun i j r => t.entry i j (r % t.d3)⟩

/-- Numpy `t.transpose((2, 1, 0))`. -/
def npTranspose210 {α : Type} (t : Arr3 α) : Arr3 α :=
  ⟨t.d3, t.d2, t.d1, fun i j k => t.entry k j i⟩

/-- Numpy `t.transpose(2, 0, 1)`: the new shape is `(d3, d1, d2)` and
`new[i, j, k] = t[j, k, i]`. -/
def npTranspose201 {α : Type} (t : Arr3 α) : Arr3 α :=
  ⟨t.d3, t.d1, t.d2, fun i j k => t.entry j k i⟩

/-- Numpy `t.transpose(1, 2, 0)`: the new shape is `(d2, d3, d1)` and
`new[i, j, k] = t[k, i, j]`. -/
def npTranspose120 {α : Type} (t : Arr3 α) : Arr3 α :=
  ⟨t.d2, t.d3, t.d1, fun i j k => t.entry k i j⟩

/-- Matrix transpose `m.T` of a 2-D array. -/
def Arr2.tr {α : Type} (m : Arr2 α) : Arr2 α :=
  ⟨m.d2, m.d1, fun i j => m.entry j i⟩

/-- Numpy `np.concatenate` along axis 0 of a list of 3-D arrays (the
scripts concatenate arrays of identical trailing shapes; `d` is returned
for the empty concatenation, which numpy rejects). -/
def npConcat3 {α : Type} (d : α) : List (Arr3 α) → Arr3 α
  | [] => ⟨0, 0, 0, fun _ _ _ => d⟩
  | a :: rest =>
    let r := npConcat3 d rest
    ⟨a.d1 + r.d1, a.d2, a.d3,
     fun i j k => if i < a.d1 then a.entry i j k else r.entry (i - a.d1) j k⟩

/-- Numpy `t.flatten()`: row-major (C-order) flattening of a 3-D array. -/
def Arr3.flattenA {α : Type} (t : Arr3 α) : Arr1 α :=
  ⟨t.d1 * t.d2 * t.d3, fun i => t.entry (i / (t.d2 * t.d3)) (i / t.d3 % t.d2) (i % t.d3)⟩

/-- Numpy `a.reshape((n1, n2, n3))`: row-major reshape of a 1-D array. -/
def Arr1.reshape3 {α : Type} (a : Arr1 α) (n1 n2 n3 : Nat) : Arr3 α :=
  ⟨n1, n2, n3, fun i j k => a.entry ((i * n2 + j) * n3 + k)⟩

/-- Numpy `np.ones(n)` for a given unit scalar. -/
def npOnes {α : Type} (one : α) (n : Nat) : Arr1 α := ⟨n, fun _ => one⟩

/-- Numpy `np.arange(n)` for a given embedding of naturals. -/
def npArange {α : Type} (ofNat : Nat → α) (n : Nat) : Arr1 α := ⟨n, fun i => ofNat i⟩

/-- Elementwise division of a 1-D array by a scalar. -/
def arr1DivS {α : Type} (div : α → α → α) (a : Arr1 α) (s : α) : Arr1 α :=
  ⟨a.size, fun i => div (a.entry i) s⟩

/-- Elementwise multiplication of a 1-D array by a scalar. -/
def arr1MulS {α : Type} (mul : α → α → α) (a : Arr1 α) (s : α) : Arr1 α :=
  ⟨a.size, fun i => mul (a.entry i) s⟩

/-- Elementwise map over a 1-D array. -/
def arr1Map {α : Type} (f : α → α) (a : Arr1 α) : Arr1 α :=
  ⟨a.size, fun i => f (a.entry i)⟩

/-- Numpy `a[:k]`: the leading slice of a 1-D array. -/
def arr1Take {α : Type} (a : Arr1 α) (k : Nat) : Arr1 α :=
  ⟨min k a.size, a.entry⟩

/-- Modelled from the spec: mpi4py `MPI.COMM_WORLD.allreduce` with the
default `MPI.SUM` operation, in the situation of the scripts where every
one of the `P` ranks contributes the same deterministically computed
value: the result is the sum of the `P` contributions.  (The mpi4py
library is external to this repository.) -/
def mpiAllreduceSum (P : Nat) (v : Nat) : Nat := (List.replicate P v).sum

/-- Modelled from the spec: mpi4py `MPI.COMM_WORLD.allgather`, in the
situation of the scripts where every one of the `P` ranks contributes the
same deterministically computed value: the list of the `P` contributions
in rank order.  (The mpi4py library is external to this repository.) -/
def mpiAllgather {β : Type} (P : Nat) (v : β) : List β := List.replicate P v

/-- The `cp.asarray` host-to-device copy: value preserving. -/
def cpAsarray {α : Type} (a : Arr1 α) : Arr1 α := a

/-- Symbolic pylops/pylops-mpi operator expressions as the scripts build
them: each constructor is one external operator constructor or one
operator-algebra combinator (`.H` is `adjoint`, `@` is `compose`, `+` is
`addOp`, scalar `*` is `scale`).  The `dtype` bookkeeping argument of
`MPILaplacian` is not modelled. -/
inductive OpExpr (α : Type) where
  | poststackLM (wav : Arr1 α) (nt0 : Nat) (spatdims : Nat × Nat)
  | transposeOp (dims : Nat × Nat × Nat) (axes : Nat × Nat × Nat)
  | adjoint (A : OpExpr α)
  | compose (A B : OpExpr α)
  | blockDiag (ops : List (OpExpr α))
  | laplacian (dims : Nat × Nat × Nat) (axes : Nat × Nat × Nat)
      (weights : α × α × α) (sampling : α × α × α)
  | addOp (A B : OpExpr α)
  | scale (c : α) (A : OpExpr α)
  | stackedVStack (ops : List (OpExpr α))

/-- Symbolic distributed arrays: a `DistributedArray` construction
followed by the fill `x[:] = data` (`filled`) or by the scalar broadcast
fill `x[:] = 0.` (`filledScalar`), an operator application, a
`StackedDistributedArray`, or a solver result (`cgls(...)[0]`,
`cg(...)[0]`). -/
inductive DistExpr (α : Type) where
  | filled (globalShape : Nat) (useNccl : Bool) (data : Arr1 α)
  | filledScalar (globalShape : Nat) (useNccl : Bool) (c : α)
  | applyOp (A : OpExpr α) (x : DistExpr α)
  | stacked (xs : List (DistExpr α))
  | cglsSol (A : OpExpr α) (y x0 : DistExpr α) (niter : Nat)
  | cgSol (A : OpExpr α) (y x0 : DistExpr α) (niter : Nat)

/-- The `global_shape` argument a distributed array was constructed with,
when the expression is a construction. -/
def DistExpr.globalShapeO {α : Type} : DistExpr α → Option Nat
  | .filled g _ _ => some g
  | .filledScalar g _ _ => some g
  | _ => none

/-- The semantics of the external libraries the scripts call, kept
abstract: scalar arithmetic on `α`, scipy `filtfilt` (with the documented
fact that it preserves the shape of its input), the pylops `ricker`
wavelet (its first result component), the `DistributedArray` methods
`asarray` and `local_array`, and local application of a pylops operator
to a 3-D array.  Every theorem below holds for every instance. -/
structure Libs (α : Type) where
  log : α → α
  ofNat : Nat → α
  ofRat : ℚ → α
  mul : α → α → α
  div : α → α → α
  sqrtF : α → α
  astypeF32 : α → α
  filtfiltF : Arr1 α → α → Arr3 α → Nat → Arr3 α
  filtfilt_d1 : ∀ b a t ax, (filtfiltF b a t ax).d1 = t.d1
  filtfilt_d2 : ∀ b a t ax, (filtfiltF b a t ax).d2 = t.d2
  filtfilt_d3 : ∀ b a t ax, (filtfiltF b a t ax).d3 = t.d3
  ricker0 : Arr1 α → α → Arr1 α
  asarrayF : DistExpr α → Arr1 α
  localArrayF : DistExpr α → Arr1 α
  applyLocal : OpExpr α → Arr3 α → Arr3 α

/-- The contents of `poststack_model.npz`: the fields the scripts read. -/
structure NpzFile (α : Type) where
  x : Arr1 α
  z : Arr1 α
  model : Arr2 α

/-- One run configuration: the abstract library semantics, the loaded
file, and the number of MPI ranks. -/
structure Env (α : Type) where
  L : Libs α
  file : NpzFile α
  P : Nat

/-- The two script variants; they share all dataflow except the wavelet
argument of `PoststackLinearModelling` and the `base_comm_nccl` flag of
the distributed-array constructions. -/
inductive Variant where
  | cupyV
  | ncclV
  deriving DecidableEq

/-- Whether the variant passes `base_comm_nccl=nccl_comm`. -/
def Variant.useNccl : Variant → Bool
  | .cupyV => false
  | .ncclV => true

namespace PS

variable {α : Type}

/-- Line `x, z, m = ...`, first component: `model['x'][::3]`. -/
def x (E : Env α) : Arr1 α := npSliceStep3A1 E.file.x

/-- Line `x, z, m = ...`, second component: `model['z']`. -/
def z (E : Env α) : Arr1 α := E.file.z

/-- Line `x, z, m = ...`, third component:
`np.log(model['model'])[:, ::3]`. -/
def m (E : Env α) : Arr2 α := npSliceStep3Cols (npLog2 E.L.log E.file.model)

/-- Line `ny_i = 20`. -/
def ny_i : Nat := 20

/-- Line `y = np.arange(ny_i)`. -/
def y (E : Env α) : Arr1 α := npArange E.L.ofNat ny_i

/-- Line `m3d_i = np.tile(m[:, :, np.newaxis], (1, 1, ny_i)).transpose((2, 1, 0))`. -/
def m3d_i (E : Env α) : Arr3 α := npTranspose210 (npTile113 (npNewaxis3 (m E)) ny_i)

/-- Line `ny_i, nx, nz = m3d_i.shape`, first component (rebinding `ny_i`). -/
def ny_i' (E : Env α) : Nat := (m3d_i E).d1

/-- Line `ny_i, nx, nz = m3d_i.shape`, second component. -/
def nx (E : Env α) : Nat := (m3d_i E).d2

/-- Line `ny_i, nx, nz = m3d_i.shape`, third component. -/
def nz (E : Env α) : Nat := (m3d_i E).d3

/-- Line `ny = MPI.COMM_WORLD.allreduce(ny_i)`. -/
def ny (E : Env α) : Nat := mpiAllreduceSum E.P (ny_i' E)

/-- Line `nsmoothy, nsmoothx, nsmoothz = 5, 30, 20`. -/
def nsmoothy : Nat := 5

/-- See `nsmoothy`. -/
def nsmoothx : Nat := 30

/-- See `nsmoothy`. -/
def nsmoothz : Nat := 20

/-- The filter taps `np.ones(n) / float(n)`. -/
def smoothTaps (E : Env α) (n : Nat) : Arr1 α :=
  arr1DivS E.L.div (npOnes (E.L.ofNat 1) n) (E.L.ofNat n)

/-- Line `mback3d_i = filtfilt(np.ones(nsmoothy) / float(nsmoothy), 1, m3d_i, axis=0)`. -/
def mback3d_iy (E : Env α) : Arr3 α :=
  E.L.filtfiltF (smoothTaps E nsmoothy) (E.L.ofNat 1) (m3d_i E) 0

/-- Line `mback3d_i = filtfilt(np.ones(nsmoothx) / float(nsmoothx), 1, mback3d_i, axis=1)`. -/
def mback3d_iyx (E : Env α) : Arr3 α :=
  E.L.filtfiltF (smoothTaps E nsmoothx) (E.L.ofNat 1) (mback3d_iy E) 1

/-- Line `mback3d_i = filtfilt(np.ones(nsmoothz) / float(nsmoothz), 1, mback3d_i, axis=2)`:
the final value of `mback3d_i`. -/
def mback3d_i (E : Env α) : Arr3 α :=
  E.L.filtfiltF (smoothTaps E nsmoothz) (E.L.ofNat 1) (mback3d_iyx E) 2

/-- Line `dt = 0.004`. -/
def dt (E : Env α) : α := E.L.ofRat (4 / 1000)

/-- Line `t0 = np.arange(nz) * dt`. -/
def t0 (E : Env α) : Arr1 α := arr1MulS E.L.mul (npArange E.L.ofNat (nz E)) (dt E)

/-- Line `ntwav = 41`. -/
def ntwav : Nat := 41

/-- Line `wav = ricker(t0[:ntwav // 2 + 1], 15)[0]`. -/
def wav (E : Env α) : Arr1 α := E.L.ricker0 (arr1Take (t0 E) (ntwav / 2 + 1)) (E.L.ofNat 15)

/-- Line `m3d = np.concatenate(MPI.COMM_WORLD.allgather(m3d_i))`. -/
def m3d (E : Env α) : Arr3 α := npConcat3 (E.L.ofNat 0) (mpiAllgather E.P (m3d_i E))

/-- Line `mback3d = np.concatenate(MPI.COMM_WORLD.allgather(mback3d_i))`. -/
def mback3d (E : Env α) : Arr3 α := npConcat3 (E.L.ofNat 0) (mpiAllgather E.P (mback3d_i E))

/-- Lines `m3d_dist = pylops_mpi.DistributedArray(global_shape=ny * nx * nz, ...)`
and `m3d_dist[:] = cp.asarray(m3d_i.flatten())`. -/
def m3d_dist (E : Env α) (v : Variant) : DistExpr α :=
  .filled (ny E * nx E * nz E) v.useNccl (cpAsarray (m3d_i E).flattenA)

/-- Lines constructing and filling `mback3d_dist`. -/
def mback3d_dist (E : Env α) (v : Variant) : DistExpr α :=
  .filled (ny E * nx E * nz E) v.useNccl (cpAsarray (mback3d_i E).flattenA)

/-- The wavelet argument of `PoststackLinearModelling`:
`cp.asarray(wav.astype(np.float32))` in the MPI/CuPy script,
`cp.asarray(wav)` in the NCCL script. -/
def wavGPU (E : Env α) : Variant → Arr1 α
  | .cupyV => cpAsarray (arr1Map E.L.astypeF32 (wav E))
  | .ncclV => cpAsarray (wav E)

/-- Line `PPop = PoststackLinearModelling(..., nt0=nz, spatdims=(ny_i, nx))`. -/
def PPop (E : Env α) (v : Variant) : OpExpr α :=
  .poststackLM (wavGPU E v) (nz E) (ny_i' E, nx E)

/-- Line `Top = Transpose((ny_i, nx, nz), (2, 0, 1))`. -/
def TopOp (E : Env α) : OpExpr α := .transposeOp (ny_i' E, nx E, nz E) (2, 0, 1)

/-- Line `BDiag = pylops_mpi.basicoperators.MPIBlockDiag(ops=[Top.H @ PPop @ Top, ])`. -/
def BDiag (E : Env α) (v : Variant) : OpExpr α :=
  .blockDiag [.compose (.compose (.adjoint (TopOp E)) (PPop E v)) (TopOp E)]

/-- Line `d_dist = BDiag @ m3d_dist`. -/
def d_dist (E : Env α) (v : Variant) : DistExpr α := .applyOp (BDiag E v) (m3d_dist E v)

/-- Line `d_local = d_dist.local_array.reshape((ny_i, nx, nz))`. -/
def d_local (E : Env α) (v : Variant) : Arr3 α :=
  (E.L.localArrayF (d_dist E v)).reshape3 (ny_i' E) (nx E) (nz E)

/-- Line `d = d_dist.asarray().reshape((ny, nx, nz))`. -/
def d (E : Env α) (v : Variant) : Arr3 α :=
  (E.L.asarrayF (d_dist E v)).reshape3 (ny E) (nx E) (nz E)

/-- Line `d_0_dist = BDiag @ mback3d_dist`. -/
def d_0_dist (E : Env α) (v : Variant) : DistExpr α := .applyOp (BDiag E v) (mback3d_dist E v)

/-- Line `d_0 = d_dist.asarray().reshape((ny, nx, nz))`.  As in the
source, the right-hand side reads `d_dist`, not `d_0_dist`. -/
def d_0 (E : Env α) (v : Variant) : Arr3 α :=
  (E.L.asarrayF (d_dist E v)).reshape3 (ny E) (nx E) (nz E)

/-- Line `minv3d_iter_dist = pylops_mpi.optimization.basic.cgls(BDiag, d_dist, x0=mback3d_dist, niter=100, show=True)[0]`. -/
def minv3d_iter_dist (E : Env α) (v : Variant) : DistExpr α :=
  .cglsSol (BDiag E v) (d_dist E v) (mback3d_dist E v) 100

/-- Line `minv3d_iter = minv3d_iter_dist.asarray().reshape((ny, nx, nz))`. -/
def minv3d_iter (E : Env α) (v : Variant) : Arr3 α :=
  (E.L.asarrayF (minv3d_iter_dist E v)).reshape3 (ny E) (nx E) (nz E)

/-- Line `epsR = 1e2`. -/
def epsR (E : Env α) : α := E.L.ofRat 100

/-- Line `LapOp = pylops_mpi.MPILaplacian(dims=(ny, nx, nz), axes=(0, 1, 2), weights=(1, 1, 1), sampling=(1, 1, 1), dtype=BDiag.dtype)`. -/
def LapOp (E : Env α) : OpExpr α :=
  .laplacian (ny E, nx E, nz E) (0, 1, 2)
    (E.L.ofNat 1, E.L.ofNat 1, E.L.ofNat 1) (E.L.ofNat 1, E.L.ofNat 1, E.L.ofNat 1)

/-- Line `NormEqOp = BDiag.H @ BDiag + epsR * LapOp.H @ LapOp` (Python
groups this as `(BDiag.H @ BDiag) + ((epsR * LapOp.H) @ LapOp)`). -/
def NormEqOp (E : Env α) (v : Variant) : OpExpr α :=
  .addOp (.compose (.adjoint (BDiag E v)) (BDiag E v))
    (.compose (.scale (epsR E) (.adjoint (LapOp E))) (LapOp E))

/-- Line `dnorm_dist = BDiag.H @ d_dist`. -/
def dnorm_dist (E : Env α) (v : Variant) : DistExpr α :=
  .applyOp (.adjoint (BDiag E v)) (d_dist E v)

/-- Line `minv3d_ne_dist = pylops_mpi.optimization.basic.cg(NormEqOp, dnorm_dist, x0=mback3d_dist, niter=100, show=True)[0]`. -/
def minv3d_ne_dist (E : Env α) (v : Variant) : DistExpr α :=
  .cgSol (NormEqOp E v) (dnorm_dist E v) (mback3d_dist E v) 100

/-- Line `minv3d_ne = minv3d_ne_dist.asarray().reshape((ny, nx, nz))`. -/
def minv3d_ne (E : Env α) (v : Variant) : Arr3 α :=
  (E.L.asarrayF (minv3d_ne_dist E v)).reshape3 (ny E) (nx E) (nz E)

/-- Line `StackOp = pylops_mpi.MPIStackedVStack([BDiag, np.sqrt(epsR) * LapOp])`. -/
def StackOp (E : Env α) (v : Variant) : OpExpr α :=
  .stackedVStack [BDiag E v, .scale (E.L.sqrtF (epsR E)) (LapOp E)]

/-- Lines `d0_dist = pylops_mpi.DistributedArray(global_shape=ny * nx * nz, ...)`
and `d0_dist[:] = 0.`. -/
def d0_dist (E : Env α) (v : Variant) : DistExpr α :=
  .filledScalar (ny E * nx E * nz E) v.useNccl (E.L.ofRat 0)

/-- Line `dstack_dist = pylops_mpi.StackedDistributedArray([d_dist, d0_dist])`. -/
def dstack_dist (E : Env α) (v : Variant) : DistExpr α :=
  .stacked [d_dist E v, d0_dist E v]

/-- Line `minv3d_reg_dist = pylops_mpi.optimization.basic.cgls(StackOp, dstack_dist, x0=mback3d_dist, niter=100, show=True)[0]`. -/
def minv3d_reg_dist (E : Env α) (v : Variant) : DistExpr α :=
  .cglsSol (StackOp E v) (dstack_dist E v) (mback3d_dist E v) 100

/-- Line `minv3d_reg = minv3d_reg_dist.asarray().reshape((ny, nx, nz))`. -/
def minv3d_reg (E : Env α) (v : Variant) : Arr3 α :=
  (E.L.asarrayF (minv3d_reg_dist E v)).reshape3 (ny E) (nx E) (nz E)

/-- Rank-0 line `PPop0 = PoststackLinearModelling(wav, nt0=nz, spatdims=(ny, nx))`. -/
def PPop0 (E : Env α) : OpExpr α := .poststackLM (wav E) (nz E) (ny E, nx E)

/-- Rank-0 line `d0 = (PPop0 @ m3d.transpose(2, 0, 1)).transpose(1, 2, 0)`. -/
def d0 (E : Env α) : Arr3 α :=
  npTranspose120 (E.L.applyLocal (PPop0 E) (npTranspose201 (m3d E)))

/-- Rank-0 line `d0_0 = (PPop0 @ m3d.transpose(2, 0, 1)).transpose(1, 2, 0)`.
As in the source, the right-hand side reads `m3d`, not `mback3d`. -/
def d0_0 (E : Env α) : Arr3 α :=
  npTranspose120 (E.L.applyLocal (PPop0 E) (npTranspose201 (m3d E)))

end PS

/-! ## Concrete instances used by the witnesses -/

/-- A concrete instantiation of the abstract library semantics over `Int`
used only to witness the parametric theorems at a computable point. -/
def trivLibs : Libs Int where
  log := id
  ofNat := Int.ofNat
  ofRat := fun _ => 0
  mul := (· * ·)
  div := fun a _ => a
  sqrtF := id
  astypeF32 := id
  filtfiltF := fun _ _ t _ => t
  filtfilt_d1 := fun _ _ _ _ => rfl
  filtfilt_d2 := fun _ _ _ _ => rfl
  filtfilt_d3 := fun _ _ _ _ => rfl
  ricker0 := fun t _ => t
  asarrayF := fun _ => ⟨0, fun _ => 0⟩
  localArrayF := fun _ => ⟨0, fun _ => 0⟩
  applyLocal := fun _ t => t

/-- A small concrete model file used by the witnesses. -/
def testFile : NpzFile Int :=
  ⟨⟨7, fun i => i⟩, ⟨5, fun i => i⟩, ⟨3, 7, fun i j => 10 * i + j⟩⟩

/-- A concrete run configuration with two ranks used by the witnesses. -/
def testEnv : Env Int := ⟨trivLibs, testFile, 2⟩

/-! ## Step classification used for the execution-order claim -/

/-- The step kinds named by the execution-order claim. -/
inductive StepKind where
  | loadStep
  | tileStep
  | smoothStep
  | buildOpStep
  | fillStep
  | invertStep
  | plotStep
  deriving DecidableEq

/-- Whether a statement is a `print(...)` call. -/
def Stmt.isPrint : Stmt → Bool
  | .exprStmt (.call (.name "print") _ _) => true
  | _ => false

/-- Whether a statement draws on the figure: it mentions one of the
plotting methods `imshow`, `set_title`, `axis` or `subplots`. -/
def Stmt.isPlot (s : Stmt) : Bool :=
  ["imshow", "set_title", "axis", "subplots"].any (fun n => s.namesS.contains n)

/-- Whether a statement is a conditional. -/
def Stmt.isIf : Stmt → Bool
  | .ifStmt _ _ => true
  | _ => false

/-- Classify a statement as one of the claimed steps: the model load is
the assignment to `model`; the tiling is the assignment to `m3d_i`; the
smoothing passes are the assignments to `mback3d_i`; the forward-operator
construction is the assignments to `PPop`, `Top` and `BDiag`; the
tile-filling of distributed arrays is the construction/fill statements of
`m3d_dist` and `mback3d_dist`; the inversions are the assignments whose
right-hand side calls the `cgls` or `cg` solver; the plotting statements
are recognised by `Stmt.isPlot`.  Everything else is unclassified. -/
def classify (s : Stmt) : Option StepKind :=
  if s.isPlot then some .plotStep else
  match s with
  | .assign "model" _ => some .loadStep
  | .assign "m3d_i" _ => some .tileStep
  | .assign "mback3d_i" _ => some .smoothStep
  | .assign t rhs =>
      if t = "PPop" || t = "Top" || t = "BDiag" then some .buildOpStep
      else if t = "m3d_dist" || t = "mback3d_dist" then some .fillStep
      else if rhs.namesE.contains "cgls" || rhs.namesE.contains "cg" then some .invertStep
      else none
  | .setItemAll t _ =>
      if t = "m3d_dist" || t = "mback3d_dist" then some .fillStep else none
  | _ => none

/-- Collapse adjacent duplicates in a step sequence. -/
def dedupAdj : List StepKind → List StepKind
  | [] => []
  | [a] => [a]
  | a :: b :: r => if a = b then dedupAdj (b :: r) else a :: dedupAdj (b :: r)

/-- The sequence of classified steps of a script, in execution order, with
adjacent repetitions collapsed. -/
def stepSeq (l : List Stmt) : List StepKind :=
  dedupAdj ((flattenScript l).filterMap classify)

/-- The step order asserted by the spec claim: operator construction
before the distributed-array fills. -/
def claimedStepOrder : List StepKind :=
  [.loadStep, .tileStep, .smoothStep, .buildOpStep, .fillStep, .invertStep, .plotStep]

/-- The step order the scripts actually execute: the distributed arrays
are constructed and filled before the forward operator is built. -/
def sourceStepOrder : List StepKind :=
  [.loadStep, .tileStep, .smoothStep, .fillStep, .buildOpStep, .invertStep, .plotStep]

/-- The CGLS inversion statement, identical in both scripts. -/
def solverStmtIter : Stmt :=
  .assign "minv3d_iter_dist" (subE (callK (solverF "cgls")
    [nm "BDiag", nm "d_dist"]
    [("x0", nm "mback3d_dist"), ("niter", intL 100), ("show", .boolLit true)]) [.ix (intL 0)])

/-- The normal-equations CG inversion statement, identical in both scripts. -/
def solverStmtNe : Stmt :=
  .assign "minv3d_ne_dist" (subE (callK (solverF "cg")
    [nm "NormEqOp", nm "dnorm_dist"]
    [("x0", nm "mback3d_dist"), ("niter", intL 100), ("show", .boolLit true)]) [.ix (intL 0)])

/-- The regularized stacked CGLS inversion statement, identical in both
scripts. -/
def solverStmtReg : Stmt :=
  .assign "minv3d_reg_dist" (subE (callK (solverF "cgls")
    [nm "StackOp", nm "dstack_dist"]
    [("x0", nm "mback3d_dist"), ("niter", intL 100), ("show", .boolLit true)]) [.ix (intL 0)])

/-- The `DistributedArray` construction statement of the MPI/CuPy script
for target `t`: keyword arguments `global_shape` and `engine` only. -/
def distArrCupy (t : String) : Stmt :=
  .assign t (callK (.atr (nm "pylops_mpi") "DistributedArray") []
    [("global_shape", nyNxNzE), ("engine", .str "cupy")])

/-- The `DistributedArray` construction statement of the NCCL script for
target `t`: the extra `base_comm_nccl=nccl_comm` keyword argument. -/
def distArrNccl (t : String) : Stmt :=
  .assign t (callK (.atr (nm "pylops_mpi") "DistributedArray") []
    [("global_shape", nyNxNzE), ("base_comm_nccl", nm "nccl_comm"), ("engine", .str "cupy")])

/-- The `PPop` construction statement of the MPI/CuPy script: the wavelet
is passed positionally as `cp.asarray(wav.astype(np.float32))`. -/
def ppopStmtCupy : Stmt :=
  .assign "PPop" (callK (nm "PoststackLinearModelling")
    [callP (.atr (nm "cp") "asarray") [meth (nm "wav") "astype" [.atr (nm "np") "float32"]]]
    [("nt0", nm "nz"), ("spatdims", tupE [nm "ny_i", nm "nx"])])

/-- The `PPop` construction statement of the NCCL script: the wavelet is
passed by keyword as `wav=cp.asarray(wav)`, with no float32 cast. -/
def ppopStmtNccl : Stmt :=
  .assign "PPop" (callK (nm "PoststackLinearModelling") []
    [ ("wav", callP (.atr (nm "cp") "asarray") [nm "wav"]),
      ("nt0", nm "nz"), ("spatdims", tupE [nm "ny_i", nm "nx"]) ])

/-- The first comparison print of the MPI/CuPy script:
`print('Distr == Local', np.allclose(cp.asnumpy(d), d0, atol=1e-6))`. -/
def printStmtCupy1 : Stmt :=
  .exprStmt (callP (nm "print")
    [ .str "Distr == Local",
      callK (.atr (nm "np") "allclose")
        [callP (.atr (nm "cp") "asnumpy") [nm "d"], nm "d0"] [("atol", .num 1 (-6))] ])

/-- The second comparison print of the MPI/CuPy script:
`print('Smooth Distr == Local', np.allclose(cp.asnumpy(d_0), d0_0, atol=1e-6))`. -/
def printStmtCupy2 : Stmt :=
  .exprStmt (callP (nm "print")
    [ .str "Smooth Distr == Local",
      callK (.atr (nm "np") "allclose")
        [callP (.atr (nm "cp") "asnumpy") [nm "d_0"], nm "d0_0"] [("atol", .num 1 (-6))] ])

/-- The first comparison print of the NCCL script:
`print('Distr == Local', np.allclose(d, d0))`. -/
def printStmtNccl1 : Stmt :=
  .exprStmt (callP (nm "print")
    [.str "Distr == Local", callP (.atr (nm "np") "allclose") [nm "d", nm "d0"]])

/-- The second comparison print of the NCCL script:
`print('Smooth Distr == Local', np.allclose(d_0, d0_0))`. -/
def printStmtNccl2 : Stmt :=
  .exprStmt (callP (nm "print")
    [.str "Smooth Distr == Local", callP (.atr (nm "np") "allclose") [nm "d_0", nm "d0_0"]])

/-- The conditional guard `rank == 0` shared by both scripts. -/
def rankZeroCond : PExpr := .binop "==" (nm "rank") (intL 0)

/-- The identifiers through which a Python script would read command-line
arguments, the environment, or further files: the modules `sys`, `os` and
`argparse` and the builtins/attributes `argv`, `environ`, `getenv`,
`input` and `open`. -/
def configNames : List String :=
  ["sys", "os", "argparse", "argv", "environ", "getenv", "input", "open"]

/-- The right-hand side shared by the rank-0 assignments to `d0` and
`d0_0`: `(PPop0 @ m3d.transpose(2, 0, 1)).transpose(1, 2, 0)`. -/
def d0RhsE : PExpr :=
  meth (.binop "@" (nm "PPop0") (meth (nm "m3d") "transpose" [intL 2, intL 0, intL 1]))
    "transpose" [intL 1, intL 2, intL 0]

/-! ## Helper lemmas -/

/-- The leading dimension of an axis-0 concatenation is the sum of the
leading dimensions. -/
theorem npConcat3_d1 {α : Type} (d : α) (l : List (Arr3 α)) :
    (npConcat3 d l).d1 = (l.map Arr3.d1).sum := by
  induction l with
  | nil => rfl
  | cons a r ih => simp [npConcat3, ih]

/-- Smoothing with the three `filtfilt` passes preserves the leading
dimension. -/
theorem mback3d_i_d1 {α : Type} (E : Env α) : (PS.mback3d_i E).d1 = (PS.m3d_i E).d1 := by
  rw [PS.mback3d_i, E.L.filtfilt_d1, PS.mback3d_iyx, E.L.filtfilt_d1,
    PS.mback3d_iy, E.L.filtfilt_d1]

/-- Smoothing with the three `filtfilt` passes preserves the second
dimension. -/
theorem mback3d_i_d2 {α : Type} (E : Env α) : (PS.mback3d_i E).d2 = (PS.m3d_i E).d2 := by
  rw [PS.mback3d_i, E.L.filtfilt_d2, PS.mback3d_iyx, E.L.filtfilt_d2,
    PS.mback3d_iy, E.L.filtfilt_d2]

/-- Smoothing with the three `filtfilt` passes preserves the third
dimension. -/
theorem mback3d_i_d3 {α : Type} (E : Env α) : (PS.mback3d_i E).d3 = (PS.m3d_i E).d3 := by
  rw [PS.mback3d_i, E.L.filtfilt_d3, PS.mback3d_iyx, E.L.filtfilt_d3,
    PS.mback3d_iy, E.L.filtfilt_d3]

/-! ## The claims -/

set_option maxRecDepth 100000

/-- Claim C1, counterexample.  The claim states that after initialization
the two scripts perform the same operations with the same arguments.  The
post-initialization statement lists are in fact different: at position 21
(the construction of the forward operator `PPop`) the MPI/CuPy script
casts the wavelet to float32 while the NCCL script does not, and at
position 3 of the conditional body the comparison prints call
`np.allclose` with different arguments. -/
theorem c1_counterexample :
    cupyAfterInit ≠ ncclAfterInit
    ∧ cupyAfterInit[21]? = some ppopStmtCupy
    ∧ ncclAfterInit[21]? = some ppopStmtNccl
    ∧ ppopStmtCupy ≠ ppopStmtNccl
    ∧ cupyIfBody[3]? = some printStmtCupy1
    ∧ ncclIfBody[3]? = some printStmtNccl1
    ∧ printStmtCupy1 ≠ printStmtNccl1 := by
  decide

/-- Claim C1, amended.  The two scripts have identical import blocks and,
after their variant-specific initialization, identical statement lists
except at exactly six places: the three `DistributedArray` constructions
(positions 17, 19 and 38), where the NCCL script passes the extra keyword
argument `base_comm_nccl=nccl_comm`; the `PPop` construction (position
21), where the MPI/CuPy script passes `cp.asarray(wav.astype(np.float32))`
positionally while the NCCL script passes `wav=cp.asarray(wav)`; and the
two rank-0 comparison prints (positions 3 and 4 of the conditional body),
where the MPI/CuPy script calls `np.allclose` on `cp.asnumpy`-converted
arrays with `atol=1e-6` while the NCCL script calls it directly on the
arrays with default tolerances. -/
theorem c1_amended :
    cupyImports = ncclImports
    ∧ cupyAfterInit.length = 45 ∧ ncclAfterInit.length = 45
    ∧ removeIdxs [17, 19, 21, 38, 44] cupyAfterInit
        = removeIdxs [17, 19, 21, 38, 44] ncclAfterInit
    ∧ cupyAfterInit[17]? = some (distArrCupy "m3d_dist")
    ∧ ncclAfterInit[17]? = some (distArrNccl "m3d_dist")
    ∧ cupyAfterInit[19]? = some (distArrCupy "mback3d_dist")
    ∧ ncclAfterInit[19]? = some (distArrNccl "mback3d_dist")
    ∧ cupyAfterInit[21]? = some ppopStmtCupy
    ∧ ncclAfterInit[21]? = some ppopStmtNccl
    ∧ cupyAfterInit[38]? = some (distArrCupy "d0_dist")
    ∧ ncclAfterInit[38]? = some (distArrNccl "d0_dist")
    ∧ cupyAfterInit[44]? = some (Stmt.ifL rankZeroCond cupyIfBody)
    ∧ ncclAfterInit[44]? = some (Stmt.ifL rankZeroCond ncclIfBody)
    ∧ removeIdxs [3, 4] cupyIfBody = removeIdxs [3, 4] ncclIfBody
    ∧ cupyIfBody[3]? = some printStmtCupy1
    ∧ ncclIfBody[3]? = some printStmtNccl1
    ∧ cupyIfBody[4]? = some printStmtCupy2
    ∧ ncclIfBody[4]? = some printStmtNccl2 := by
  decide

/-- Claim C2, counterexample.  The claim states that each script builds
the forward operator before filling the distributed arrays; in the source
the order is the opposite: the step sequence of both scripts is not the
claimed one, and concretely the `m3d_dist` construction sits at
post-initialization position 17 while the `PPop` construction sits at
position 21. -/
theorem c2_counterexample :
    stepSeq cupyScript ≠ claimedStepOrder
    ∧ stepSeq ncclScript ≠ claimedStepOrder
    ∧ cupyAfterInit[17]? = some (distArrCupy "m3d_dist")
    ∧ cupyAfterInit[21]? = some ppopStmtCupy
    ∧ ncclAfterInit[17]? = some (distArrNccl "m3d_dist")
    ∧ ncclAfterInit[21]? = some ppopStmtNccl := by
  decide

/-- Claim C2, amended.  Each script executes, in this order: it loads the
2D model from `poststack_model.npz`, tiles it into a 3D volume, smooths
it with `filtfilt` along axes 0, 1 and 2, fills the per-rank
`DistributedArray` objects with the local tiles, builds the convolutional
forward operator (`PoststackLinearModelling` wrapped in `Transpose`
conjugation inside `MPIBlockDiag`), runs the iterative least-squares
inversions, and plots the results. -/
theorem c2_amended :
    stepSeq cupyScript = sourceStepOrder
    ∧ stepSeq ncclScript = sourceStepOrder
    ∧ cupyAfterInit[0]? = some (.assign "model"
        (callP (.atr (nm "np") "load") [.str "../testdata/avo/poststack_model.npz"]))
    ∧ cupyAfterInit[4]? = some (.assign "m3d_i" (meth (callP (.atr (nm "np") "tile")
        [ subE (nm "m") [.sliceAll, .sliceAll, .ix (.atr (nm "np") "newaxis")],
          tupE [intL 1, intL 1, nm "ny_i"] ]) "transpose" [tupE [intL 2, intL 1, intL 0]]))
    ∧ cupyAfterInit[8]? = some (.assign "mback3d_i" (filtfiltE (nm "nsmoothy") (nm "m3d_i") 0))
    ∧ cupyAfterInit[9]? = some (.assign "mback3d_i" (filtfiltE (nm "nsmoothx") (nm "mback3d_i") 1))
    ∧ cupyAfterInit[10]? = some (.assign "mback3d_i" (filtfiltE (nm "nsmoothz") (nm "mback3d_i") 2))
    ∧ cupyAfterInit[18]? = some (.setItemAll "m3d_dist"
        (callP (.atr (nm "cp") "asarray") [meth (nm "m3d_i") "flatten" []]))
    ∧ cupyAfterInit[20]? = some (.setItemAll "mback3d_dist"
        (callP (.atr (nm "cp") "asarray") [meth (nm "mback3d_i") "flatten" []]))
    ∧ cupyAfterInit[22]? = some (.assign "Top" (callP (nm "Transpose")
        [tupE [nm "ny_i", nm "nx", nm "nz"], tupE [intL 2, intL 0, intL 1]]))
    ∧ cupyAfterInit[23]? = some (.assign "BDiag"
        (callK (.atr (.atr (nm "pylops_mpi") "basicoperators") "MPIBlockDiag") []
          [("ops", listL [.binop "@" (.binop "@" (.atr (nm "Top") "H") (nm "PPop")) (nm "Top")])]))
    ∧ ncclModelBlock = cupyModelBlock
    ∧ ncclForwardBlock = cupyForwardBlock := by
  decide

/-- Claim C3.  In both scripts `d_0` is computed by calling `asarray()` on
`d_dist` (not on `d_0_dist`): semantically `d_0` equals `d` for every
library semantics, every input file, every rank count and both variants;
and syntactically the assignments to `d` and `d_0` have the identical
right-hand side `d_dist.asarray().reshape((ny, nx, nz))` while the name
`d_0_dist` is never read by any later statement of either script. -/
theorem c3_thm :
    (∀ (α : Type) (E : Env α) (v : Variant), PS.d_0 E v = PS.d E v)
    ∧ cupyFlat[39]? = some (.assign "d" (asarrayReshapeE "d_dist"))
    ∧ cupyFlat[40]? = some (.assign "d_0_dist" (.binop "@" (nm "BDiag") (nm "mback3d_dist")))
    ∧ cupyFlat[41]? = some (.assign "d_0" (asarrayReshapeE "d_dist"))
    ∧ (cupyFlat.drop 41).all (fun s => !(s.namesS.contains "d_0_dist")) = true
    ∧ ncclFlat[38]? = some (.assign "d" (asarrayReshapeE "d_dist"))
    ∧ ncclFlat[39]? = some (.assign "d_0_dist" (.binop "@" (nm "BDiag") (nm "mback3d_dist")))
    ∧ ncclFlat[40]? = some (.assign "d_0" (asarrayReshapeE "d_dist"))
    ∧ (ncclFlat.drop 40).all (fun s => !(s.namesS.contains "d_0_dist")) = true := by
  exact ⟨fun α E v => rfl, by decide⟩

/-- Claim C4.  In the rank-0 block of both scripts the assignments to `d0`
and `d0_0` have the identical right-hand side
`(PPop0 @ m3d.transpose(2, 0, 1)).transpose(1, 2, 0)`, which reads `m3d`
and never `mback3d`; semantically `d0_0` equals `d0` for every library
semantics, every input file and every rank count, and the second
comparison print compares `d_0` with `d0_0`, both derived from the full
(non-smooth) model. -/
theorem c4_thm :
    (∀ (α : Type) (E : Env α), PS.d0_0 E = PS.d0 E)
    ∧ cupyIfBody[1]? = some (.assign "d0" d0RhsE)
    ∧ cupyIfBody[2]? = some (.assign "d0_0" d0RhsE)
    ∧ ncclIfBody[1]? = some (.assign "d0" d0RhsE)
    ∧ ncclIfBody[2]? = some (.assign "d0_0" d0RhsE)
    ∧ d0RhsE.namesE.contains "m3d" = true
    ∧ d0RhsE.namesE.contains "mback3d" = false
    ∧ cupyIfBody[4]? = some printStmtCupy2
    ∧ ncclIfBody[4]? = some printStmtNccl2
    ∧ printStmtCupy2.namesS.contains "d_0" = true
    ∧ printStmtCupy2.namesS.contains "d0_0" = true
    ∧ printStmtNccl2.namesS.contains "d_0" = true
    ∧ printStmtNccl2.namesS.contains "d0_0" = true := by
  exact ⟨fun α E => rfl, by decide⟩

/-- Claim C5.  In each script the statements that invoke an iterative
solver are exactly three: CGLS on `BDiag` with data `d_dist`, CG on
`NormEqOp = BDiag.H @ BDiag + epsR * LapOp.H @ LapOp` with data
`dnorm_dist = BDiag.H @ d_dist`, and CGLS on
`StackOp = MPIStackedVStack([BDiag, np.sqrt(epsR) * LapOp])` with the
stacked data `[d_dist, d0_dist]` where `d0_dist` is zero-filled; each is
started from `x0=mback3d_dist` with `niter=100`. -/
theorem c5_thm :
    cupyFlat.filter (fun s => s.namesS.contains "cgls" || s.namesS.contains "cg")
      = [solverStmtIter, solverStmtNe, solverStmtReg]
    ∧ ncclFlat.filter (fun s => s.namesS.contains "cgls" || s.namesS.contains "cg")
      = [solverStmtIter, solverStmtNe, solverStmtReg]
    ∧ cupyAfterInit[33]? = some (.assign "NormEqOp" (.binop "+"
        (.binop "@" (.atr (nm "BDiag") "H") (nm "BDiag"))
        (.binop "@" (.binop "*" (nm "epsR") (.atr (nm "LapOp") "H")) (nm "LapOp"))))
    ∧ cupyAfterInit[34]? = some (.assign "dnorm_dist"
        (.binop "@" (.atr (nm "BDiag") "H") (nm "d_dist")))
    ∧ cupyAfterInit[37]? = some (.assign "StackOp"
        (callP (.atr (nm "pylops_mpi") "MPIStackedVStack")
          [listL [nm "BDiag", .binop "*" (callP (.atr (nm "np") "sqrt") [nm "epsR"]) (nm "LapOp")]]))
    ∧ cupyAfterInit[39]? = some (.setItemAll "d0_dist" (.num 0 0))
    ∧ cupyAfterInit[40]? = some (.assign "dstack_dist"
        (callP (.atr (nm "pylops_mpi") "StackedDistributedArray")
          [listL [nm "d_dist", nm "d0_dist"]]))
    ∧ ncclAfterInit[33]? = cupyAfterInit[33]?
    ∧ ncclAfterInit[34]? = cupyAfterInit[34]?
    ∧ ncclAfterInit[37]? = cupyAfterInit[37]?
    ∧ ncclAfterInit[39]? = cupyAfterInit[39]?
    ∧ ncclAfterInit[40]? = cupyAfterInit[40]? := by
  decide

/-- Claim C6.  Neither script contains any exception handler or loop, and
each contains exactly one conditional, namely the `rank == 0` block; so
any error raised by a library call propagates out of the script
unhandled. -/
theorem c6_thm :
    scriptCountTry cupyScript = 0 ∧ scriptCountLoop cupyScript = 0
    ∧ scriptCountIf cupyScript = 1
    ∧ cupyScript.filter Stmt.isIf = [Stmt.ifL rankZeroCond cupyIfBody]
    ∧ scriptCountTry ncclScript = 0 ∧ scriptCountLoop ncclScript = 0
    ∧ scriptCountIf ncclScript = 1
    ∧ ncclScript.filter Stmt.isIf = [Stmt.ifL rankZeroCond ncclIfBody] := by
  decide

/-- Claim C7.  Neither script mentions any identifier through which
command-line arguments, environment variables or further files could be
read, and every numerical parameter is a hardcoded literal: `ny_i = 20`,
the smoothing lengths `5, 30, 20`, `dt = 0.004`, `ntwav = 41`,
`epsR = 1e2`, `niter=100` inside each of the three solver calls, and the
input path `../testdata/avo/poststack_model.npz` inside the single
`np.load` call. -/
theorem c7_thm :
    (cupyScript.map Stmt.namesS).flatten.all (fun n => !(configNames.contains n)) = true
    ∧ (ncclScript.map Stmt.namesS).flatten.all (fun n => !(configNames.contains n)) = true
    ∧ cupyAfterInit[0]? = some (.assign "model"
        (callP (.atr (nm "np") "load") [.str "../testdata/avo/poststack_model.npz"]))
    ∧ cupyAfterInit[2]? = some (.assign "ny_i" (intL 20))
    ∧ cupyAfterInit[7]? = some (.assignTup ["nsmoothy", "nsmoothx", "nsmoothz"]
        (tupE [intL 5, intL 30, intL 20]))
    ∧ cupyAfterInit[11]? = some (.assign "dt" (.num 4 (-3)))
    ∧ cupyAfterInit[13]? = some (.assign "ntwav" (intL 41))
    ∧ cupyAfterInit[31]? = some (.assign "epsR" (.num 1 2))
    ∧ cupyAfterInit[29]? = some solverStmtIter
    ∧ cupyAfterInit[35]? = some solverStmtNe
    ∧ cupyAfterInit[42]? = some solverStmtReg
    ∧ ncclAfterInit[0]? = cupyAfterInit[0]?
    ∧ ncclAfterInit[2]? = cupyAfterInit[2]?
    ∧ ncclAfterInit[7]? = cupyAfterInit[7]?
    ∧ ncclAfterInit[11]? = cupyAfterInit[11]?
    ∧ ncclAfterInit[13]? = cupyAfterInit[13]?
    ∧ ncclAfterInit[31]? = cupyAfterInit[31]?
    ∧ ncclAfterInit[29]? = cupyAfterInit[29]?
    ∧ ncclAfterInit[35]? = cupyAfterInit[35]?
    ∧ ncclAfterInit[42]? = cupyAfterInit[42]? := by
  decide

/-- Claim C8.  The per-rank 3D model `m3d_i` has shape `(20, nx, nz)`
where `nx` and `nz` are the column and row counts of the 2D model `m`,
and for every index `j < 20` its slice `m3d_i[j, :, :]` equals the
transpose `m.T`, where `m = np.log(model['model'])[:, ::3]` is the
natural logarithm of the loaded model decimated by a factor of 3 along
x. -/
theorem c8_thm (α : Type) (E : Env α) (j b a : Nat) (hj : j < 20) :
    (PS.m3d_i E).d1 = 20
    ∧ (PS.m3d_i E).d2 = (PS.m E).d2
    ∧ (PS.m3d_i E).d3 = (PS.m E).d1
    ∧ (PS.m3d_i E).entry j b a = (PS.m E).tr.entry b a
    ∧ PS.m E = npSliceStep3Cols (npLog2 E.L.log E.file.model) := by
  exact ⟨rfl, rfl, rfl, rfl, rfl⟩

/-- Witness for C8 at a concrete configuration: two ranks, a 3-by-7 model
file with entries `10 i + j`, slice index 3, matrix index (1, 2). -/
theorem c8_witness :
    (3 < 20)
    ∧ ((PS.m3d_i testEnv).d1 = 20
      ∧ (PS.m3d_i testEnv).d2 = (PS.m testEnv).d2
      ∧ (PS.m3d_i testEnv).d3 = (PS.m testEnv).d1
      ∧ (PS.m3d_i testEnv).entry 3 1 2 = (PS.m testEnv).tr.entry 1 2
      ∧ PS.m testEnv = npSliceStep3Cols (npLog2 testEnv.L.log testEnv.file.model)) :=
  ⟨by decide, c8_thm Int testEnv 3 1 2 (by decide)⟩

/-- Claim C9.  With `P` ranks, `ny` is the allreduce sum of the per-rank
`ny_i`, hence exactly `20 * P`; the gathered `m3d` and `mback3d` are the
axis-0 concatenations of the allgathered local tiles and have shape
`(ny, nx, nz)`; and the three `DistributedArray` constructions use the
scalar `global_shape = ny * nx * nz`. -/
theorem c9_thm (α : Type) (E : Env α) (v : Variant) (hP : 0 < E.P) :
    PS.ny E = 20 * E.P
    ∧ PS.m3d E = npConcat3 (E.L.ofNat 0) (mpiAllgather E.P (PS.m3d_i E))
    ∧ PS.mback3d E = npConcat3 (E.L.ofNat 0) (mpiAllgather E.P (PS.mback3d_i E))
    ∧ (PS.m3d E).d1 = PS.ny E ∧ (PS.m3d E).d2 = PS.nx E ∧ (PS.m3d E).d3 = PS.nz E
    ∧ (PS.mback3d E).d1 = PS.ny E ∧ (PS.mback3d E).d2 = PS.nx E ∧ (PS.mback3d E).d3 = PS.nz E
    ∧ (PS.m3d_dist E v).globalShapeO = some (PS.ny E * PS.nx E * PS.nz E)
    ∧ (PS.mback3d_dist E v).globalShapeO = some (PS.ny E * PS.nx E * PS.nz E)
    ∧ (PS.d0_dist E v).globalShapeO = some (PS.ny E * PS.nx E * PS.nz E) := by
  obtain ⟨k, hk⟩ := Nat.exists_eq_succ_of_ne_zero (Nat.pos_iff_ne_zero.mp hP)
  have hni : PS.ny_i' E = 20 := rfl
  have hny : PS.ny E = 20 * E.P := by
    rw [PS.ny, mpiAllreduceSum, List.sum_replicate, smul_eq_mul, hni, Nat.mul_comm]
  refine ⟨hny, rfl, rfl, ?_, ?_, ?_, ?_, ?_, ?_, rfl, rfl, rfl⟩
  · rw [PS.m3d, mpiAllgather, npConcat3_d1, List.map_replicate, List.sum_replicate,
      PS.ny, mpiAllreduceSum, List.sum_replicate]
    rfl
  · rw [PS.m3d, mpiAllgather, hk, List.replicate_succ]
    rfl
  · rw [PS.m3d, mpiAllgather, hk, List.replicate_succ]
    rfl
  · rw [PS.mback3d, mpiAllgather, npConcat3_d1, List.map_replicate, List.sum_replicate,
      mback3d_i_d1, PS.ny, mpiAllreduceSum, List.sum_replicate]
    rfl
  · rw [PS.mback3d, mpiAllgather, hk, List.replicate_succ]
    show (npConcat3 _ (PS.mback3d_i E :: List.replicate k (PS.mback3d_i E))).d2 = PS.nx E
    rw [npConcat3]
    exact mback3d_i_d2 E
  · rw [PS.mback3d, mpiAllgather, hk, List.replicate_succ]
    show (npConcat3 _ (PS.mback3d_i E :: List.replicate k (PS.mback3d_i E))).d3 = PS.nz E
    rw [npConcat3]
    exact mback3d_i_d3 E

/-- Witness for C9 at a concrete configuration: the trivial integer
library semantics, a 3-by-7 model file, two ranks, the MPI/CuPy variant. -/
theorem c9_witness :
    (0 < testEnv.P)
    ∧ (PS.ny testEnv = 20 * testEnv.P
      ∧ PS.m3d testEnv = npConcat3 (testEnv.L.ofNat 0) (mpiAllgather testEnv.P (PS.m3d_i testEnv))
      ∧ PS.mback3d testEnv
          = npConcat3 (testEnv.L.ofNat 0) (mpiAllgather testEnv.P (PS.mback3d_i testEnv))
      ∧ (PS.m3d testEnv).d1 = PS.ny testEnv ∧ (PS.m3d testEnv).d2 = PS.nx testEnv
      ∧ (PS.m3d testEnv).d3 = PS.nz testEnv
      ∧ (PS.mback3d testEnv).d1 = PS.ny testEnv ∧ (PS.mback3d testEnv).d2 = PS.nx testEnv
      ∧ (PS.mback3d testEnv).d3 = PS.nz testEnv
      ∧ (PS.m3d_dist testEnv .cupyV).globalShapeO
          = some (PS.ny testEnv * PS.nx testEnv * PS.nz testEnv)
      ∧ (PS.mback3d_dist testEnv .cupyV).globalShapeO
          = some (PS.ny testEnv * PS.nx testEnv * PS.nz testEnv)
      ∧ (PS.d0_dist testEnv .cupyV).globalShapeO
          = some (PS.ny testEnv * PS.nx testEnv * PS.nz testEnv)) :=
  ⟨by decide, c9_thm Int testEnv .cupyV (by decide)⟩

/-- Claim C10.  In both scripts every print and every plotting statement
sits inside the single `rank == 0` conditional (no top-level statement
prints or draws), and inside the conditional body the two comparison
prints (positions 3 and 4) come before every plotting statement: the
first five body statements contain no plotting call and every later body
statement is a plotting call and not a print. -/
theorem c10_thm :
    (cupyScript.filter (fun s => !s.isIf)).all (fun s => !s.isPrint && !s.isPlot) = true
    ∧ cupyScript.filter Stmt.isIf = [Stmt.ifL rankZeroCond cupyIfBody]
    ∧ cupyIfBody[3]? = some printStmtCupy1
    ∧ cupyIfBody[4]? = some printStmtCupy2
    ∧ (cupyIfBody.take 5).all (fun s => !s.isPlot) = true
    ∧ (cupyIfBody.drop 5).all (fun s => s.isPlot && !s.isPrint) = true
    ∧ (ncclScript.filter (fun s => !s.isIf)).all (fun s => !s.isPrint && !s.isPlot) = true
    ∧ ncclScript.filter Stmt.isIf = [Stmt.ifL rankZeroCond ncclIfBody]
    ∧ ncclIfBody[3]? = some printStmtNccl1
    ∧ ncclIfBody[4]? = some printStmtNccl2
    ∧ (ncclIfBody.take 5).all (fun s => !s.isPlot) = true
    ∧ (ncclIfBody.drop 5).all (fun s => s.isPlot && !s.isPrint) = true := by
  decide
